import Mathlib

/-!
Shallow embedding of the `haymaker_m365_workloads` package
(worker models, email generator, activity orchestrator, workload
lifecycle), together with theorems settling the specification claims.

Conventions of the embedding:
* Python ints are `Int`/`Nat`, Python floats are `ℚ` (the code only
  divides small integers and compares against random draws, so exact
  rationals are adequate), Python strings are `String`.
* `random.random()` is an oracle `rng : Nat → ℚ` indexed by the number
  of draws consumed so far; the draw index is threaded through state.
* Fallible Python code (Python exceptions) is `Except String _` /
  `Option _`; a total Lean function models code that cannot raise.
* `datetime.utcnow()` timestamps are supplied as parameters.
-/

namespace M365

/- ===================== DEFINITIONS ===================== -/

/- ===== models/worker.py ===== -/

inductive Department where
  | operations
  | engineering
  | sales
  | hr
  | finance
  | executive
deriving DecidableEq, Repr

/-- The `.value` of the `str`-valued `Department` enum. -/
def Department.value : Department → String
  | .operations => "operations"
  | .engineering => "engineering"
  | .sales => "sales"
  | .hr => "hr"
  | .finance => "finance"
  | .executive => "executive"

structure ActivityPattern where
  email_per_hour : ℚ := 5
  teams_messages_per_hour : ℚ := 10
  documents_per_day : ℚ := 3
  meetings_per_day : ℚ := 4
  activity_variance_percent : ℚ := 30
  work_start_hour : ℤ := 8
  work_end_hour : ℤ := 17
deriving DecidableEq, Repr

/-- The `DEPARTMENT_PATTERNS` dict composed with `.get (default
`ActivityPattern()`)`: since every `Department` constructor is a key of
the dict literal, the lookup is a total match and the default value is
unreachable. -/
def DEPARTMENT_PATTERNS : Department → ActivityPattern
  | .operations =>
      { email_per_hour := 6, teams_messages_per_hour := 8,
        documents_per_day := 4, meetings_per_day := 4 }
  | .engineering =>
      { email_per_hour := 4, teams_messages_per_hour := 15,
        documents_per_day := 6, meetings_per_day := 3 }
  | .sales =>
      { email_per_hour := 12, teams_messages_per_hour := 10,
        documents_per_day := 3, meetings_per_day := 8 }
  | .hr =>
      { email_per_hour := 10, teams_messages_per_hour := 8,
        documents_per_day := 5, meetings_per_day := 5 }
  | .finance =>
      { email_per_hour := 6, teams_messages_per_hour := 5,
        documents_per_day := 8, meetings_per_day := 4 }
  | .executive =>
      { email_per_hour := 8, teams_messages_per_hour := 5,
        documents_per_day := 2, meetings_per_day := 10 }

structure WorkerConfig where
  department : Department
  worker_number : ℤ
  deployment_id : String
  display_name_prefix : String := "Haymaker"
  domain : Option String := none
deriving DecidableEq, Repr

structure WorkerIdentity where
  worker_id : String
  display_name : String
  user_principal_name : String
  department : Department
  entra_object_id : String
  deployment_id : String
  activity_pattern : ActivityPattern := {}
deriving DecidableEq, Repr

/-- `WorkerIdentity.from_config`. -/
def WorkerIdentity.from_config (config : WorkerConfig)
    (entra_object_id : String) (upn : String) : WorkerIdentity :=
  match config with
  | ⟨department, worker_number, deployment_id, name_pref, _domain⟩ =>
    { worker_id := "worker-" ++ deployment_id ++ "-" ++ toString worker_number
      display_name := name_pref ++ " Worker " ++ toString worker_number
      user_principal_name := upn
      department := department
      entra_object_id := entra_object_id
      deployment_id := deployment_id
      activity_pattern := DEPARTMENT_PATTERNS department }

/- ===== content/prompts.py and content/email_generator.py ===== -/

structure GeneratedEmail where
  subject : String
  body : String
deriving DecidableEq, Repr

/-- Python `str.lower()` as used on department names (`Char.toLower`
maps the ASCII uppercase range; department keys are ASCII). Defined over
the character list so that it evaluates inside the kernel. -/
def py_lower (s : String) : String := String.mk (s.data.map Char.toLower)

/-- The `topics` dict of `build_email_prompt` composed with its
`.get(department.lower(), "about a work-related topic")`. -/
def email_topics (department_lower : String) : String :=
  if department_lower = "engineering" then
    "about a code review, sprint update, or technical decision"
  else if department_lower = "sales" then
    "about a client meeting, deal progress, or quarterly targets"
  else if department_lower = "hr" then
    "about a policy update, onboarding, or team event"
  else if department_lower = "finance" then
    "about budget review, expense report, or financial planning"
  else if department_lower = "operations" then
    "about process improvement, vendor coordination, or logistics"
  else if department_lower = "executive" then
    "about strategic initiative, board preparation, or organizational update"
  else "about a work-related topic"

/-- `build_email_prompt`; `if directive:` is Python truthiness, so an
absent or empty directive both take the topics branch. -/
def build_email_prompt (department worker_name : String)
    (directive : Option String) : String :=
  let base := "Write a short internal business email from " ++ worker_name ++
    " in the " ++ department ++ " department."
  let base :=
    if (directive.getD "") ≠ "" then
      base ++ "\n\nAdditional context: " ++ directive.getD ""
    else
      base ++ "\nThe email should be " ++ email_topics (py_lower department) ++ "."
  base ++
    "\n\nReturn ONLY the email content (subject line on first line, then body). No other text."

def known_subject_prefixes : List String := ["Subject:", "subject:", "RE:", "Re:"]

/-- The prefix-removal loop of `_parse_email_response`: each matching
known prefix in turn is removed and the remainder stripped. -/
def strip_subject_prefixes (subject : String) : String :=
  known_subject_prefixes.foldl
    (fun s p => if s.startsWith p then (s.drop p.length).trim else s) subject

/-- Python `s.split("\n", 1)`: at most one split, at the first newline. -/
def split_once_newline (s : String) : List String :=
  match s.splitOn "\n" with
  | [] => [s]
  | [x] => [x]
  | x :: rest => [x, String.intercalate "\n" rest]

/-- `EmailGenerator._parse_email_response`. -/
def _parse_email_response (content : String) (worker_name : String) :
    GeneratedEmail :=
  match split_once_newline content.trim with
  | [line0, line1] =>
      { subject := strip_subject_prefixes line0.trim, body := line1.trim }
  | _ =>
      { subject := "Update from " ++ worker_name, body := content.trim }

/-- `EmailGenerator`. The LLM client boundary (`_generate_with_llm` up to
its `create_message_async` call) is abstracted as a function from the
built prompt to either response content or a raised exception; an
unavailable `agent_haymaker.llm` import is one of the failure cases. -/
structure EmailGenerator where
  llm_client : Option (String → Except String String) := none
  directive : Option String := none
  fallback_counter : Nat := 0

/-- The `templates` dict literal of `_generate_fallback` composed with
its `.get(department.lower(), default-single-template-list)`. -/
def fallback_templates (department_lower : String) (worker_name : String) :
    List (String × String) :=
  if department_lower = "engineering" then
    [("Sprint Update",
      "Hi team,\n\nJust a quick update on the current sprint. We\x27re on track with the planned deliverables.\n\nBest,\n" ++ worker_name),
     ("Code Review Request",
      "Hi,\n\nCould you take a look at my latest PR when you get a chance? It addresses the performance issue we discussed.\n\nThanks,\n" ++ worker_name)]
  else if department_lower = "sales" then
    [("Client Follow-up",
      "Hi team,\n\nFollowing up on today\x27s client call. They\x27re interested in moving forward with the proposal.\n\nBest,\n" ++ worker_name),
     ("Pipeline Update",
      "Hi,\n\nQuick update on the Q4 pipeline - we\x27re tracking well against targets.\n\nRegards,\n" ++ worker_name)]
  else
    [("Work Update",
      "Hi,\n\nSharing a quick update on current priorities.\n\nBest,\n" ++ worker_name)]

/-- `EmailGenerator._generate_fallback`; list indexing is modelled as
`get?` so an out-of-bounds index (a Python `IndexError`) would be
`none`. -/
def _generate_fallback (g : EmailGenerator) (department worker_name : String) :
    Option (GeneratedEmail × EmailGenerator) :=
  let n := g.fallback_counter + 1
  let dept_templates := fallback_templates (py_lower department) worker_name
  (dept_templates.get? (n % dept_templates.length)).map
    (fun t => ({ subject := t.1, body := t.2 }, { g with fallback_counter := n }))

/-- `EmailGenerator.generate`: LLM path when a client is attached, with
any raised generation error degrading to the template fallback. -/
def EmailGenerator.generate (g : EmailGenerator)
    (department worker_name : String) :
    Option (GeneratedEmail × EmailGenerator) :=
  match g.llm_client with
  | some client =>
    match client (build_email_prompt department worker_name g.directive) with
    | .ok content => some (_parse_email_response content worker_name, g)
    | .error _ => _generate_fallback g department worker_name
  | none => _generate_fallback g department worker_name

/-- A generator that takes the fallback path on every call: either no
richer (LLM) generator is attached, or every richer generation raises. -/
def AlwaysFallsBack (g : EmailGenerator) : Prop :=
  ∀ client, g.llm_client = some client →
    ∀ prompt, ∃ e, client prompt = Except.error e

/-- Generator state after `k` successive `generate` calls. -/
def afterCalls (department worker_name : String) (g : EmailGenerator) :
    Nat → Option EmailGenerator
  | 0 => some g
  | k + 1 => (afterCalls department worker_name g k).bind
      (fun g' => (g'.generate department worker_name).map Prod.snd)

/-- The result of call number `k + 1` in a row of `generate` calls. -/
def nthGenerateCall (department worker_name : String) (g : EmailGenerator)
    (k : Nat) : Option GeneratedEmail :=
  (afterCalls department worker_name g k).bind
    (fun g' => (g'.generate department worker_name).map Prod.fst)

/- ===== operations/orchestrator.py ===== -/

/-- One entry of the activity record handed to `_on_activity` (also the
dict appended per firing decision); `subject` is only ever set for
email activities. -/
structure ActivityEvent where
  type : String
  worker_id : String
  timestamp : String
  subject : Option String := none
deriving DecidableEq, Repr

/-- The immutable configuration of an `ActivityOrchestrator`:
its worker list and duration bound, together with the oracles for
`random.random()` (indexed by draw count), the email generator
(indexed by call count) and the `datetime.utcnow()` timestamp. -/
structure OrchCtx where
  workers : List WorkerIdentity := []
  duration_hours : Option ℤ := none
  rng : Nat → ℚ := fun _ => 0
  email_generator : Option (Nat → String → String → Except String GeneratedEmail) := none
  now : String := "t"

/-- The mutable state of an `ActivityOrchestrator`: `_running`,
whether the background `_task` is alive, `_logs`, `_activity_count`,
the `_on_activity` notifications so far, and the oracle cursors. -/
structure OrchState where
  running : Bool := false
  task_alive : Bool := false
  logs : List String := []
  activity_count : Nat := 0
  events : List ActivityEvent := []
  rng_index : Nat := 0
  gen_index : Nat := 0
deriving DecidableEq, Repr

/-- The formatted line of `ActivityOrchestrator._log`. -/
def mkLogLine (timestamp level message : String) : String :=
  "[" ++ timestamp ++ "] [" ++ level ++ "] " ++ message

/-- `ActivityOrchestrator._log` (in-memory append; the file write
duplicates the same line). -/
def orch_log (ctx : OrchCtx) (s : OrchState) (message level : String) :
    OrchState :=
  { s with logs := s.logs ++ [mkLogLine ctx.now level message] }

/-- `ActivityOrchestrator._should_perform_activity`: one
`random.random()` draw compared against `per_hour_rate / 60`. -/
def _should_perform_activity (ctx : OrchCtx) (per_hour_rate : ℚ)
    (s : OrchState) : Bool × OrchState :=
  (decide (ctx.rng s.rng_index < per_hour_rate / 60),
   { s with rng_index := s.rng_index + 1 })

/-- The subject resolution at the top of `_send_email`: `subject = None`
unless a generator is attached and its `generate` call returns; a raised
generation error is caught and logged as a WARNING line. -/
def resolve_subject (ctx : OrchCtx) (worker : WorkerIdentity)
    (s : OrchState) : Option String × OrchState :=
  match ctx.email_generator with
  | none => (none, s)
  | some gen =>
    match gen s.gen_index (Department.value worker.department)
        worker.display_name with
    | .ok generated =>
      (some generated.subject, { s with gen_index := s.gen_index + 1 })
    | .error e =>
      (none,
       orch_log ctx { s with gen_index := s.gen_index + 1 }
         ("Email generation failed for " ++ worker.display_name ++ ": " ++ e)
         "WARNING")

/-- `ActivityOrchestrator._send_email`; `if subject:` is Python
truthiness, so an empty-string subject is logged without the subject
even though the activity record carries it. -/
def _send_email (ctx : OrchCtx) (worker : WorkerIdentity) (s : OrchState) :
    OrchState :=
  let res := resolve_subject ctx worker s
  let s1 := res.2
  let activity : ActivityEvent :=
    { type := "email", worker_id := worker.worker_id, timestamp := ctx.now,
      subject := res.1 }
  let s2 := { s1 with activity_count := s1.activity_count + 1 }
  let s3 :=
    if (res.1.getD "") ≠ "" then
      orch_log ctx s2
        ("Email sent by " ++ worker.display_name ++ ": \"" ++
          res.1.getD "" ++ "\"") "INFO"
    else orch_log ctx s2 ("Email sent by " ++ worker.display_name) "INFO"
  { s3 with events := s3.events ++ [activity] }

/-- `ActivityOrchestrator._send_teams_message`. -/
def _send_teams_message (ctx : OrchCtx) (worker : WorkerIdentity)
    (s : OrchState) : OrchState :=
  let activity : ActivityEvent :=
    { type := "teams_message", worker_id := worker.worker_id,
      timestamp := ctx.now }
  let s1 := { s with activity_count := s.activity_count + 1 }
  let s2 :=
    orch_log ctx s1 ("Teams message sent by " ++ worker.display_name) "INFO"
  { s2 with events := s2.events ++ [activity] }

/-- `ActivityOrchestrator._create_document`. -/
def _create_document (ctx : OrchCtx) (worker : WorkerIdentity)
    (s : OrchState) : OrchState :=
  let activity : ActivityEvent :=
    { type := "document", worker_id := worker.worker_id, timestamp := ctx.now }
  let s1 := { s with activity_count := s.activity_count + 1 }
  let s2 :=
    orch_log ctx s1 ("Document created by " ++ worker.display_name) "INFO"
  { s2 with events := s2.events ++ [activity] }

/-- First statement of `_perform_worker_activities`: email activity
based on `pattern.email_per_hour`. -/
def email_step (ctx : OrchCtx) (worker : WorkerIdentity) (s : OrchState) :
    OrchState :=
  let r := _should_perform_activity ctx worker.activity_pattern.email_per_hour s
  if r.1 then _send_email ctx worker r.2 else r.2

/-- Second statement of `_perform_worker_activities`: Teams activity
based on `pattern.teams_messages_per_hour`. -/
def teams_step (ctx : OrchCtx) (worker : WorkerIdentity) (s : OrchState) :
    OrchState :=
  let r := _should_perform_activity ctx
    worker.activity_pattern.teams_messages_per_hour s
  if r.1 then _send_teams_message ctx worker r.2 else r.2

/-- Third statement of `_perform_worker_activities`: document activity
based on `pattern.documents_per_day / 8` (spread across 8 hours). -/
def document_step (ctx : OrchCtx) (worker : WorkerIdentity) (s : OrchState) :
    OrchState :=
  let r := _should_perform_activity ctx
    (worker.activity_pattern.documents_per_day / 8) s
  if r.1 then _create_document ctx worker r.2 else r.2

/-- `ActivityOrchestrator._perform_worker_activities`: the three
rate-gated activity statements in source order. -/
def _perform_worker_activities (ctx : OrchCtx) (worker : WorkerIdentity)
    (s : OrchState) : OrchState :=
  document_step ctx worker (teams_step ctx worker (email_step ctx worker s))

/-- The per-worker body of `_run_activity_cycle`: skip the worker
unless `work_start_hour <= current_hour < work_end_hour`. -/
def _cycle_worker (ctx : OrchCtx) (current_hour : ℤ)
    (worker : WorkerIdentity) (s : OrchState) : OrchState :=
  if worker.activity_pattern.work_start_hour ≤ current_hour ∧
      current_hour < worker.activity_pattern.work_end_hour then
    _perform_worker_activities ctx worker s
  else s

/-- `ActivityOrchestrator._run_activity_cycle`: one cycle over the
worker list at the current UTC hour. -/
def _run_activity_cycle (ctx : OrchCtx) (current_hour : ℤ)
    (workers : List WorkerIdentity) (s : OrchState) : OrchState :=
  workers.foldl (fun s worker => _cycle_worker ctx current_hour worker s) s

/-- `ActivityOrchestrator.start`: no-op while already running,
otherwise set `_running`, log, and launch the background task. -/
def orch_start (ctx : OrchCtx) (s : OrchState) : OrchState :=
  if s.running then s
  else
    let s1 := { s with running := true }
    let s2 := orch_log ctx s1
      ("Starting activity orchestration for " ++
        toString ctx.workers.length ++ " workers") "INFO"
    { s2 with task_alive := true }

/-- `ActivityOrchestrator.stop`: clear `_running`, log "Stopping
activity orchestration", cancel the task and await its termination
(after which the background task is no longer alive). A second call
re-runs the same statements (cancelling an already-finished task has
no effect). -/
def orch_stop (ctx : OrchCtx) (s : OrchState) : OrchState :=
  let s1 := { s with running := false }
  let s2 := orch_log ctx s1 "Stopping activity orchestration" "INFO"
  { s2 with task_alive := false }

/-- The `end_time` computation at the top of `ActivityOrchestrator._run`:
`if self.duration_hours:` is Python truthiness, so both `None` and `0`
leave `end_time = None`. -/
def run_end_time (duration_hours : Option ℤ) (start_ts : ℚ) : Option ℚ :=
  match duration_hours with
  | none => none
  | some d => if d = 0 then none else some (start_ts + (d : ℚ) * 3600)

/-- The cycle loop of `ActivityOrchestrator._run`, counting how many
activity cycles run while `_running` stays true, observed for `fuel`
iterations; `clock i` is the wall-clock timestamp read at the top of
iteration `i`. The duration check `if end_time and now >= end_time`
again uses Python truthiness of `end_time`. -/
def loop_cycles (end_time : Option ℚ) (clock : Nat → ℚ) :
    Nat → Nat → Nat
  | 0, _ => 0
  | fuel + 1, i =>
    match end_time with
    | some t =>
      if t ≠ 0 ∧ t ≤ clock i then 0
      else loop_cycles end_time clock fuel (i + 1) + 1
    | none => loop_cycles end_time clock fuel (i + 1) + 1

/-- The externally drivable operations of an `ActivityOrchestrator`:
its public methods plus one background-task cycle iteration. -/
inductive Op where
  | start
  | stop
  | cycle (current_hour : ℤ)
  | get_logs (lines : Nat)
  | get_status
deriving DecidableEq, Repr

def Op.isStart : Op → Bool
  | .start => true
  | _ => false

/-- One operation of the orchestrator. The cycle body only executes
inside the live background task and only while `_running` holds;
`get_logs` (without follow) and the `activity_count` read of
`get_status` do not modify orchestrator state. -/
def applyOp (ctx : OrchCtx) (op : Op) (s : OrchState) : OrchState :=
  match op with
  | .start => orch_start ctx s
  | .stop => orch_stop ctx s
  | .cycle current_hour =>
    if s.running ∧ s.task_alive then
      _run_activity_cycle ctx current_hour ctx.workers s
    else s
  | .get_logs _ => s
  | .get_status => s

def applyOps (ctx : OrchCtx) (ops : List Op) (s : OrchState) : OrchState :=
  ops.foldl (fun s op => applyOp ctx op s) s

/-- A scheduler on which `stop()` has returned: not running and with no
live background task. -/
def Stopped (s : OrchState) : Prop :=
  s.running = false ∧ s.task_alive = false

/-- The activity-pattern fields the orchestrator reads: equality on
everything except `meetings_per_day` and `activity_variance_percent`. -/
def PatternObsEq (p q : ActivityPattern) : Prop :=
  p.email_per_hour = q.email_per_hour ∧
  p.teams_messages_per_hour = q.teams_messages_per_hour ∧
  p.documents_per_day = q.documents_per_day ∧
  p.work_start_hour = q.work_start_hour ∧
  p.work_end_hour = q.work_end_hour

/-- Two workers identical except possibly in their patterns\x27
`meetings_per_day` and `activity_variance_percent`. -/
def WorkerObsEq (w v : WorkerIdentity) : Prop :=
  w.worker_id = v.worker_id ∧
  w.display_name = v.display_name ∧
  w.user_principal_name = v.user_principal_name ∧
  w.department = v.department ∧
  w.entra_object_id = v.entra_object_id ∧
  w.deployment_id = v.deployment_id ∧
  PatternObsEq w.activity_pattern v.activity_pattern

/- ===== identity/user_manager.py ===== -/

/-- `EntraUserManager`: the `_workers` dict (insertion-ordered,
unique keys) and whether the three credentials `KW_TENANT_ID`,
`KW_APP_ID`, `KW_CLIENT_SECRET` are all available — the only failure
mode of `_get_graph_client`. -/
structure EntraUserManager where
  deployment_id : String := ""
  workers : List (String × WorkerIdentity) := []
  creds_ok : Bool := true
deriving DecidableEq, Repr

/-- `EntraUserManager._get_graph_client`, reduced to its effect on
control flow: raises `ValueError` when a required credential is
missing. -/
def _get_graph_client (m : EntraUserManager) : Except String Unit :=
  if m.creds_ok then Except.ok ()
  else Except.error
    "Missing M365 credentials. Required: KW_TENANT_ID, KW_APP_ID, KW_CLIENT_SECRET"

/-- `EntraUserManager.delete_worker`. -/
def delete_worker (m : EntraUserManager) (worker_id : String) :
    Except String (Bool × EntraUserManager) :=
  match m.workers.lookup worker_id with
  | none => Except.ok (false, m)
  | some _ =>
    match _get_graph_client m with
    | Except.error e => Except.error e
    | Except.ok _ =>
      Except.ok (true,
        { m with workers := m.workers.filter (fun kv => kv.1 != worker_id) })

/-- The loop of `delete_all_workers` over the pre-computed key list. -/
def delete_all_go :
    EntraUserManager → Nat → List String → Except String (Nat × EntraUserManager)
  | m, count, [] => Except.ok (count, m)
  | m, count, worker_id :: ids =>
    match delete_worker m worker_id with
    | Except.error e => Except.error e
    | Except.ok (true, m') => delete_all_go m' (count + 1) ids
    | Except.ok (false, m') => delete_all_go m' count ids

/-- `EntraUserManager.delete_all_workers`. -/
def delete_all_workers (m : EntraUserManager) :
    Except String (Nat × EntraUserManager) :=
  delete_all_go m 0 (m.workers.map Prod.fst)

/- ===== workload.py ===== -/

inductive DeploymentStatus where
  | pending
  | running
  | stopped
  | cleaning_up
  | completed
  | failed
deriving DecidableEq, Repr

/-- The `DeploymentState` fields that `cleanup` reads and writes. -/
structure DeploymentState where
  deployment_id : String := ""
  status : DeploymentStatus := .pending
  phase : String := ""
  error : Option String := none
deriving DecidableEq, Repr

structure CleanupReport where
  deployment_id : String := ""
  resources_deleted : Nat := 0
  details : List String := []
  errors : List String := []
deriving DecidableEq, Repr

/-- `M365KnowledgeWorkerWorkload.cleanup`: stop the orchestrator when
still running (total in this model), move to `CLEANING_UP`, delete all
Entra users, count them into the report, and mark `COMPLETED`; any
exception raised inside the try block (here: by the deletion
capability) is caught, appended to the report errors and turns the
final state `FAILED`. `save_state` is external persistence glue and is
modelled as non-failing. -/
def cleanup (st : DeploymentState) (mgr : Option EntraUserManager) :
    CleanupReport × DeploymentState :=
  let report : CleanupReport := { deployment_id := st.deployment_id }
  let st1 : DeploymentState :=
    { st with status := .cleaning_up, phase := "cleanup" }
  match mgr with
  | none => (report, { st1 with status := .completed, phase := "cleaned_up" })
  | some m =>
    match delete_all_workers m with
    | Except.error e =>
      ({ report with errors := report.errors ++ [e] },
       { st1 with status := .failed, error := some e })
    | Except.ok (deleted, _) =>
      ({ report with
           resources_deleted := report.resources_deleted + deleted,
           details := report.details ++
             ["Deleted " ++ toString deleted ++ " Entra users"] },
       { st1 with status := .completed, phase := "cleaned_up" })

/-- The non-follow portion of `ActivityOrchestrator.get_logs`: the
Python slice `self._logs[-lines:]`, whose `lines = 0` case is
`logs[0:]`, i.e. the whole buffer. -/
def get_logs_lines (logs : List String) (lines : Nat) : List String :=
  if lines = 0 then logs else logs.drop (logs.length - lines)

/-- Python values as they can appear in `workload_config` for the
fields `validate_config` inspects. -/
inductive PyVal where
  | int (n : ℤ)
  | bool (b : Bool)
  | float (q : ℚ)
  | str (s : String)
  | none
deriving DecidableEq, Repr

/-- Python `isinstance(v, int)` (`bool` is a subclass of `int`). -/
def isinstance_int : PyVal → Bool
  | .int _ => true
  | .bool _ => true
  | _ => false

def isinstance_bool : PyVal → Bool
  | .bool _ => true
  | _ => false

def isinstance_str : PyVal → Bool
  | .str _ => true
  | _ => false

/-- The numeric value a Python object contributes to an order
comparison against an int, when that comparison is defined at all;
`str`/`None` comparisons against an int raise `TypeError`. -/
def py_num : PyVal → Option ℚ
  | .int n => some (n : ℚ)
  | .bool b => some (if b then 1 else 0)
  | .float q => some q
  | _ => Option.none

/-- Python `v < k` for an int literal `k`. -/
def py_lt_int (v : PyVal) (k : ℤ) : Except String Bool :=
  match py_num v with
  | some q => Except.ok (decide (q < (k : ℚ)))
  | Option.none => Except.error "TypeError: unsupported comparison"

/-- Python `v > k` for an int literal `k`. -/
def py_gt_int (v : PyVal) (k : ℤ) : Except String Bool :=
  match py_num v with
  | some q => Except.ok (decide ((k : ℚ) < q))
  | Option.none => Except.error "TypeError: unsupported comparison"

/-- Python `v in [list of str]`: equality against each element, never
raising (a non-str `v` is simply unequal to every entry). -/
def py_in_str_list (v : PyVal) (l : List String) : Bool :=
  match v with
  | .str s => l.contains s
  | _ => false

def valid_departments : List String :=
  ["operations", "engineering", "sales", "hr", "finance", "executive"]

/-- `M365KnowledgeWorkerWorkload.validate_config`. `base_errors` is
what `super().validate_config(config)` returned (external base class);
`cfg` is `config.workload_config.get`; absent keys default exactly as
in source. The first workers check short-circuits
(`not isinstance(workers, int) or workers < 1`), but the second check
`if workers > 300:` is evaluated unconditionally. -/
def validate_config (base_errors : List String)
    (cfg : String → Option PyVal) : Except String (List String) := do
  let workers := (cfg "workers").getD (PyVal.int 25)
  let e1 ←
    if !(isinstance_int workers) then
      pure ["\x27workers\x27 must be a positive integer"]
    else do
      let lt1 ← py_lt_int workers 1
      pure (if lt1 then ["\x27workers\x27 must be a positive integer"] else [])
  let gt300 ← py_gt_int workers 300
  let e2 := if gt300 then ["\x27workers\x27 cannot exceed 300"] else []
  let department := (cfg "department").getD (PyVal.str "operations")
  let e3 :=
    if !(py_in_str_list department valid_departments) then
      ["\x27department\x27 must be one of: " ++
        String.intercalate ", " valid_departments]
    else []
  let enable_ai := (cfg "enable_ai_generation").getD (PyVal.bool false)
  let e4 :=
    if !(isinstance_bool enable_ai) then
      ["\x27enable_ai_generation\x27 must be a boolean"]
    else []
  let email_directive := (cfg "email_directive").getD PyVal.none
  let e5 :=
    if email_directive ≠ PyVal.none ∧ !(isinstance_str email_directive) then
      ["\x27email_directive\x27 must be a string"]
    else []
  pure (base_errors ++ e1 ++ e2 ++ e3 ++ e4 ++ e5)

/-- A sample provisioned worker entry used in concrete instances. -/
def sample_worker (i : String) : String × WorkerIdentity :=
  (i, { worker_id := i, display_name := "W", user_principal_name := "u",
        department := .sales, entra_object_id := "e", deployment_id := "d" })

/- ===================== THEOREMS ===================== -/

/-- C6: `WorkerIdentity.from_config` derives `workerId` as
`worker-{deploymentId}-{index}` and `displayName` as
`{prefix} Worker {index}`; being a pure function of its inputs, equal
inputs rebuild equal identities, and the concrete instance
`(deploymentId="d1", index=3, department=engineering)` yields
`workerId="worker-d1-3"`. -/
theorem from_config_deterministic_format :
    (∀ (c : WorkerConfig) (oid upn : String),
      (WorkerIdentity.from_config c oid upn).worker_id =
        "worker-" ++ c.deployment_id ++ "-" ++ toString c.worker_number ∧
      (WorkerIdentity.from_config c oid upn).display_name =
        WorkerConfig.display_name_prefix c ++ " Worker " ++ toString c.worker_number) ∧
    (∀ (c c' : WorkerConfig) (oid upn : String), c = c' →
      WorkerIdentity.from_config c oid upn = WorkerIdentity.from_config c' oid upn) ∧
    (WorkerIdentity.from_config
      { department := .engineering, worker_number := 3, deployment_id := "d1" }
      "entra-x" "x@contoso.onmicrosoft.com").worker_id = "worker-d1-3" := by
  refine ⟨fun c oid upn => ?_, fun c c' oid upn h => by rw [h], by decide⟩
  cases c
  exact ⟨rfl, rfl⟩

/-- Closed witness for C6's hypothesis-bearing conjunct (determinism). -/
theorem from_config_deterministic_format_witness :
    WorkerIdentity.from_config
        { department := .engineering, worker_number := 3, deployment_id := "d1" }
        "o" "u" =
      WorkerIdentity.from_config
        { department := .engineering, worker_number := 3, deployment_id := "d1" }
        "o" "u" :=
  from_config_deterministic_format.2.1
    { department := .engineering, worker_number := 3, deployment_id := "d1" }
    { department := .engineering, worker_number := 3, deployment_id := "d1" }
    "o" "u" rfl

theorem fallback_templates_length_pos (dl wn : String) :
    0 < (fallback_templates dl wn).length := by
  unfold fallback_templates
  split
  · simp
  · split
    · simp
    · simp

theorem _generate_fallback_eq (g : EmailGenerator) (d wn : String) :
    _generate_fallback g d wn =
      some
        ((fun t => ({ subject := t.1, body := t.2 } : GeneratedEmail))
          ((fallback_templates (py_lower d) wn).get
            ⟨(g.fallback_counter + 1) % (fallback_templates (py_lower d) wn).length,
              Nat.mod_lt _ (fallback_templates_length_pos _ wn)⟩),
         { g with fallback_counter := g.fallback_counter + 1 }) := by
  simp only [_generate_fallback]
  rw [List.get?_eq_get (Nat.mod_lt _ (fallback_templates_length_pos _ wn))]
  rfl

theorem generate_fallback_of_alwaysFallsBack (g : EmailGenerator)
    (d wn : String) (h : AlwaysFallsBack g) :
    g.generate d wn = _generate_fallback g d wn := by
  unfold EmailGenerator.generate
  cases hc : g.llm_client with
  | none => rfl
  | some client =>
    obtain ⟨e, he⟩ := h client hc (build_email_prompt d wn g.directive)
    show (match client (build_email_prompt d wn g.directive) with
      | Except.ok content => some (_parse_email_response content wn, g)
      | Except.error _ => _generate_fallback g d wn) = _generate_fallback g d wn
    rw [he]

theorem alwaysFallsBack_update (g : EmailGenerator) (h : AlwaysFallsBack g)
    (n : Nat) : AlwaysFallsBack { g with fallback_counter := n } := by
  intro client hc prompt
  exact h client hc prompt

theorem afterCalls_counter (d wn : String) (g : EmailGenerator)
    (h : AlwaysFallsBack g) (k : Nat) :
    afterCalls d wn g k = some { g with fallback_counter := g.fallback_counter + k } := by
  induction k with
  | zero => simp [afterCalls]
  | succ k ih =>
    rw [afterCalls, ih, Option.some_bind,
      generate_fallback_of_alwaysFallsBack _ _ _ (alwaysFallsBack_update g h _),
      _generate_fallback_eq]
    simp [Nat.add_assoc]

/-- C5: `EmailGenerator.generate` never raises (it is `some` for every
generator state, department and worker name — in particular every
exception of the richer LLM path is absorbed); and on a freshly
constructed generator that always falls back, call number `k + 1`
returns the department\x27s template at index `(k + 1) mod
(number of templates for that department)` — so for department
"engineering" the first three calls return the templates at indices
`1 % 2`, `2 % 2`, `3 % 2` in that order. -/
theorem generate_never_raises_and_fallback_cycles :
    (∀ (g : EmailGenerator) (d wn : String), (g.generate d wn).isSome = true) ∧
    (∀ (g : EmailGenerator) (d wn : String) (k : Nat),
      AlwaysFallsBack g → g.fallback_counter = 0 →
      nthGenerateCall d wn g k =
        ((fallback_templates (py_lower d) wn).get?
            ((k + 1) % (fallback_templates (py_lower d) wn).length)).map
          (fun t => { subject := t.1, body := t.2 })) ∧
    ((nthGenerateCall "engineering" "Ana" {} 0).map GeneratedEmail.subject =
        some "Code Review Request" ∧
     (nthGenerateCall "engineering" "Ana" {} 1).map GeneratedEmail.subject =
        some "Sprint Update" ∧
     (nthGenerateCall "engineering" "Ana" {} 2).map GeneratedEmail.subject =
        some "Code Review Request") := by
  refine ⟨fun g d wn => ?_, fun g d wn k h h0 => ?_, by rfl, by rfl, by rfl⟩
  · cases hc : g.llm_client with
    | none =>
      unfold EmailGenerator.generate
      rw [hc, _generate_fallback_eq]
      rfl
    | some client =>
      unfold EmailGenerator.generate
      rw [hc]
      show (Option.isSome (match client (build_email_prompt d wn g.directive) with
        | Except.ok content => some (_parse_email_response content wn, g)
        | Except.error _ => _generate_fallback g d wn)) = true
      cases client (build_email_prompt d wn g.directive) with
      | ok content => rfl
      | error e =>
        rw [_generate_fallback_eq]
        rfl
  · rw [nthGenerateCall, afterCalls_counter d wn g h, Option.some_bind,
      generate_fallback_of_alwaysFallsBack _ _ _ (alwaysFallsBack_update g h _),
      _generate_fallback_eq, h0,
      List.get?_eq_get (Nat.mod_lt _ (fallback_templates_length_pos _ wn))]
    simp

/-- Closed witness for C5: the fallback-cycling conjunct applied to a
fresh generator with no LLM client, department "engineering", first
call. -/
theorem generate_never_raises_and_fallback_cycles_witness :
    nthGenerateCall "engineering" "Ana" {} 0 =
      ((fallback_templates (py_lower "engineering") "Ana").get?
          ((0 + 1) % (fallback_templates (py_lower "engineering") "Ana").length)).map
        (fun t => { subject := t.1, body := t.2 }) :=
  generate_never_raises_and_fallback_cycles.2.1 {} "engineering" "Ana" 0
    (fun client hc _ => by simp at hc) rfl

/-- C1, evaluated at the failing input `durationHours = 0`: because
`if self.duration_hours:` is falsy at `0`, `_run` computes no
`end_time`, the duration check never fires, and the loop performs as
many cycles as it is observed for (here also concretely: 5 cycles in 5
iterations) instead of at most one cycle followed by completion. -/
theorem duration_zero_runs_unbounded :
    (∀ start_ts : ℚ, run_end_time (some 0) start_ts = none) ∧
    (∀ (clock : Nat → ℚ) (start_ts : ℚ) (fuel i : Nat),
      loop_cycles (run_end_time (some 0) start_ts) clock fuel i = fuel) ∧
    loop_cycles (run_end_time (some 0) 0) (fun i => 60 * (i : ℚ)) 5 0 = 5 := by
  have hloop : ∀ (clock : Nat → ℚ) (fuel i : Nat),
      loop_cycles none clock fuel i = fuel := by
    intro clock fuel
    induction fuel with
    | zero => intro i; rfl
    | succ n ih => intro i; simp [loop_cycles, ih]
  exact ⟨fun _ => rfl,
    fun clock ts fuel i => by rw [show run_end_time (some 0) ts = none from rfl]; exact hloop clock fuel i,
    by rfl⟩

/-- C2: a worker whose work-hour window does not contain the current
hour contributes nothing to a cycle: the per-worker body leaves the
whole state unchanged (no activity event, no log line, no
`activityCount` increment, not even a random draw), for every value of
the worker\x27s rates; hence a cycle over a worker list containing that
worker equals the cycle with that worker removed. -/
theorem outside_work_hours_no_activity (ctx : OrchCtx) (hour : ℤ)
    (w : WorkerIdentity) (s : OrchState)
    (hout : ¬ (w.activity_pattern.work_start_hour ≤ hour ∧
        hour < w.activity_pattern.work_end_hour)) :
    _cycle_worker ctx hour w s = s ∧
    ∀ (ws1 ws2 : List WorkerIdentity),
      _run_activity_cycle ctx hour (ws1 ++ w :: ws2) s =
        _run_activity_cycle ctx hour (ws1 ++ ws2) s := by
  have hid : ∀ s' : OrchState, _cycle_worker ctx hour w s' = s' := by
    intro s'
    unfold _cycle_worker
    rw [if_neg hout]
  refine ⟨hid s, fun ws1 ws2 => ?_⟩
  unfold _run_activity_cycle
  rw [List.foldl_append, List.foldl_append, List.foldl_cons, hid]

/-- Closed witness for C2: the default pattern works 8..17, hour 20 is
outside, the worker is skipped. -/
theorem outside_work_hours_no_activity_witness :
    _cycle_worker {} 20
      { worker_id := "w", display_name := "W", user_principal_name := "u",
        department := .engineering, entra_object_id := "e",
        deployment_id := "d" } {} = ({} : OrchState) :=
  (outside_work_hours_no_activity {} 20
    { worker_id := "w", display_name := "W", user_principal_name := "u",
      department := .engineering, entra_object_id := "e",
      deployment_id := "d" } {} (by decide)).1

theorem orch_log_count (ctx : OrchCtx) (s : OrchState) (m l : String) :
    (orch_log ctx s m l).activity_count = s.activity_count := rfl

theorem resolve_subject_count (ctx : OrchCtx) (w : WorkerIdentity)
    (s : OrchState) :
    ((resolve_subject ctx w s).2).activity_count = s.activity_count := by
  unfold resolve_subject
  split
  · rfl
  · split
    · rfl
    · rfl

theorem _send_email_count (ctx : OrchCtx) (w : WorkerIdentity)
    (s : OrchState) :
    (_send_email ctx w s).activity_count = s.activity_count + 1 := by
  simp only [_send_email]
  split
  · simp [orch_log_count, resolve_subject_count]
  · simp [orch_log_count, resolve_subject_count]

theorem email_step_count_mono (ctx : OrchCtx) (w : WorkerIdentity)
    (s : OrchState) :
    s.activity_count ≤ (email_step ctx w s).activity_count := by
  unfold email_step
  dsimp only
  split
  · rw [_send_email_count]
    exact Nat.le_succ _
  · exact Nat.le_refl _

theorem teams_step_count_mono (ctx : OrchCtx) (w : WorkerIdentity)
    (s : OrchState) :
    s.activity_count ≤ (teams_step ctx w s).activity_count := by
  unfold teams_step
  dsimp only
  split
  · exact Nat.le_succ _
  · exact Nat.le_refl _

theorem document_step_count_mono (ctx : OrchCtx) (w : WorkerIdentity)
    (s : OrchState) :
    s.activity_count ≤ (document_step ctx w s).activity_count := by
  unfold document_step
  dsimp only
  split
  · exact Nat.le_succ _
  · exact Nat.le_refl _

theorem _perform_worker_activities_count_mono (ctx : OrchCtx)
    (w : WorkerIdentity) (s : OrchState) :
    s.activity_count ≤ (_perform_worker_activities ctx w s).activity_count :=
  le_trans (le_trans (email_step_count_mono ctx w s)
    (teams_step_count_mono ctx w _)) (document_step_count_mono ctx w _)

theorem _cycle_worker_count_mono (ctx : OrchCtx) (hour : ℤ)
    (w : WorkerIdentity) (s : OrchState) :
    s.activity_count ≤ (_cycle_worker ctx hour w s).activity_count := by
  unfold _cycle_worker
  split
  · exact _perform_worker_activities_count_mono ctx w s
  · exact Nat.le_refl _

theorem _run_activity_cycle_count_mono (ctx : OrchCtx) (hour : ℤ)
    (ws : List WorkerIdentity) (s : OrchState) :
    s.activity_count ≤ (_run_activity_cycle ctx hour ws s).activity_count := by
  induction ws generalizing s with
  | nil => exact Nat.le_refl _
  | cons w ws ih =>
    exact le_trans (_cycle_worker_count_mono ctx hour w s)
      (ih (_cycle_worker ctx hour w s))

theorem applyOp_count_mono (ctx : OrchCtx) (op : Op) (s : OrchState) :
    s.activity_count ≤ (applyOp ctx op s).activity_count := by
  cases op with
  | start =>
    show s.activity_count ≤ (orch_start ctx s).activity_count
    unfold orch_start
    split
    · exact Nat.le_refl _
    · exact Nat.le_refl _
  | stop => exact Nat.le_refl _
  | cycle hour =>
    simp only [applyOp]
    split
    · exact _run_activity_cycle_count_mono ctx hour ctx.workers s
    · exact Nat.le_refl _
  | get_logs n => exact Nat.le_refl _
  | get_status => exact Nat.le_refl _

theorem applyOp_stopped (ctx : OrchCtx) (op : Op) (s : OrchState)
    (h : Stopped s) (hop : op.isStart = false) :
    (applyOp ctx op s).activity_count = s.activity_count ∧
      Stopped (applyOp ctx op s) := by
  cases op with
  | start => simp [Op.isStart] at hop
  | stop => exact ⟨rfl, rfl, rfl⟩
  | cycle hour =>
    have hng : ¬ (s.running = true ∧ s.task_alive = true) := fun hx => by
      rw [h.1] at hx
      exact Bool.false_ne_true hx.1
    simp only [applyOp]
    rw [if_neg hng]
    exact ⟨rfl, h⟩
  | get_logs n => exact ⟨rfl, h⟩
  | get_status => exact ⟨rfl, h⟩

theorem applyOps_stopped_count (ctx : OrchCtx) (ops : List Op)
    (s : OrchState) (h : Stopped s)
    (hops : ∀ op ∈ ops, op.isStart = false) :
    (applyOps ctx ops s).activity_count = s.activity_count := by
  induction ops generalizing s with
  | nil => rfl
  | cons op ops ih =>
    have h1 := applyOp_stopped ctx op s h (hops op (List.mem_cons_self _ _))
    have h2 := ih (applyOp ctx op s) h1.2
      (fun o ho => hops o (List.mem_cons_of_mem _ ho))
    calc (applyOps ctx (op :: ops) s).activity_count
        = (applyOps ctx ops (applyOp ctx op s)).activity_count := rfl
      _ = (applyOp ctx op s).activity_count := h2
      _ = s.activity_count := h1.1

/-- C3: `activityCount` is monotonically non-decreasing — every
operation of the orchestrator leaves it unchanged or increases it, and
each fired activity (email, Teams message, document) adds exactly 1 —
and once `stop()` has returned (not running, background task
terminated), no sequence of operations other than a restart via
`start()` changes it again. -/
theorem activity_count_monotone_and_frozen_after_stop :
    (∀ (ctx : OrchCtx) (op : Op) (s : OrchState),
      s.activity_count ≤ (applyOp ctx op s).activity_count) ∧
    (∀ (ctx : OrchCtx) (w : WorkerIdentity) (s : OrchState),
      (_send_email ctx w s).activity_count = s.activity_count + 1 ∧
      (_send_teams_message ctx w s).activity_count = s.activity_count + 1 ∧
      (_create_document ctx w s).activity_count = s.activity_count + 1) ∧
    (∀ (ctx : OrchCtx) (ops : List Op) (s : OrchState),
      Stopped s → (∀ op ∈ ops, op.isStart = false) →
      (applyOps ctx ops s).activity_count = s.activity_count) :=
  ⟨applyOp_count_mono,
   fun ctx w s => ⟨_send_email_count ctx w s, rfl, rfl⟩,
   applyOps_stopped_count⟩

/-- Closed witness for C3: a stopped scheduler keeps its counter at 7
under stop/status/cycle/log operations. -/
theorem activity_count_monotone_and_frozen_after_stop_witness :
    (applyOps {} [Op.stop, Op.get_status, Op.cycle 9, Op.get_logs 10]
        { logs := ["x"], activity_count := 7 }).activity_count =
      ({ logs := ["x"], activity_count := 7 } : OrchState).activity_count :=
  activity_count_monotone_and_frozen_after_stop.2.2 {}
    [Op.stop, Op.get_status, Op.cycle 9, Op.get_logs 10]
    { logs := ["x"], activity_count := 7 } ⟨rfl, rfl⟩ (by decide)

/-- C4 counterexample: `stop()` is not idempotent on the observable log
contents — the second call appends another "Stopping activity
orchestration" line, so the state after two calls differs from the
state after one call. -/
theorem stop_twice_ne_stop_once :
    orch_stop {} (orch_stop {} ({} : OrchState)) ≠
      orch_stop {} ({} : OrchState) := by
  decide

/-- C4 amended: calling `stop()` twice is equivalent to calling it once
on the running flag, the task state, the counter and the recorded
events, except that each call appends one more "Stopping activity
orchestration" log line — the second call differs from the first only
by that one extra line. -/
theorem stop_idempotent_except_log_line (ctx : OrchCtx) (s : OrchState) :
    orch_stop ctx (orch_stop ctx s) =
      { orch_stop ctx s with
          logs := (orch_stop ctx s).logs ++
            [mkLogLine ctx.now "INFO" "Stopping activity orchestration"] } := by
  cases s
  rfl

theorem resolve_subject_congr (ctx : OrchCtx) {w v : WorkerIdentity}
    (h1 : w.display_name = v.display_name)
    (h3 : w.department = v.department) :
    resolve_subject ctx w = resolve_subject ctx v := by
  funext s
  unfold resolve_subject
  rw [h1, h3]

theorem _send_email_congr (ctx : OrchCtx) {w v : WorkerIdentity}
    (h1 : w.display_name = v.display_name)
    (h2 : w.worker_id = v.worker_id) (h3 : w.department = v.department) :
    _send_email ctx w = _send_email ctx v := by
  funext s
  unfold _send_email
  rw [resolve_subject_congr ctx h1 h3, h1, h2]

theorem _send_teams_message_congr (ctx : OrchCtx) {w v : WorkerIdentity}
    (h1 : w.display_name = v.display_name)
    (h2 : w.worker_id = v.worker_id) :
    _send_teams_message ctx w = _send_teams_message ctx v := by
  funext s
  unfold _send_teams_message
  rw [h1, h2]

theorem _create_document_congr (ctx : OrchCtx) {w v : WorkerIdentity}
    (h1 : w.display_name = v.display_name)
    (h2 : w.worker_id = v.worker_id) :
    _create_document ctx w = _create_document ctx v := by
  funext s
  unfold _create_document
  rw [h1, h2]

theorem email_step_congr (ctx : OrchCtx) {w v : WorkerIdentity}
    (hr : w.activity_pattern.email_per_hour = v.activity_pattern.email_per_hour)
    (h1 : w.display_name = v.display_name)
    (h2 : w.worker_id = v.worker_id) (h3 : w.department = v.department) :
    email_step ctx w = email_step ctx v := by
  funext s
  unfold email_step
  rw [hr, _send_email_congr ctx h1 h2 h3]

theorem teams_step_congr (ctx : OrchCtx) {w v : WorkerIdentity}
    (hr : w.activity_pattern.teams_messages_per_hour =
      v.activity_pattern.teams_messages_per_hour)
    (h1 : w.display_name = v.display_name)
    (h2 : w.worker_id = v.worker_id) :
    teams_step ctx w = teams_step ctx v := by
  funext s
  unfold teams_step
  rw [hr, _send_teams_message_congr ctx h1 h2]

theorem document_step_congr (ctx : OrchCtx) {w v : WorkerIdentity}
    (hr : w.activity_pattern.documents_per_day =
      v.activity_pattern.documents_per_day)
    (h1 : w.display_name = v.display_name)
    (h2 : w.worker_id = v.worker_id) :
    document_step ctx w = document_step ctx v := by
  funext s
  unfold document_step
  rw [hr, _create_document_congr ctx h1 h2]

theorem _cycle_worker_congr (ctx : OrchCtx) (hour : ℤ)
    {w v : WorkerIdentity} (h : WorkerObsEq w v) :
    _cycle_worker ctx hour w = _cycle_worker ctx hour v := by
  obtain ⟨hid, hdn, _hupn, hdep, _hoid, _hdid, he, ht, hd, hws, hwe⟩ := h
  funext s
  unfold _cycle_worker _perform_worker_activities
  rw [hws, hwe, email_step_congr ctx he hdn hid hdep,
    teams_step_congr ctx ht hdn hid, document_step_congr ctx hd hdn hid]

/-- C10: the orchestrator never reads `meetings_per_day` or
`activity_variance_percent` — two cycle runs over worker lists that are
pointwise identical except in those two fields produce identical
states, so identical activity events, log lines and `activityCount`,
for every randomness oracle, generator and hour. -/
theorem meetings_variance_noninterference (ctx : OrchCtx) (hour : ℤ)
    (ws vs : List WorkerIdentity) (s : OrchState)
    (h : List.Forall₂ WorkerObsEq ws vs) :
    _run_activity_cycle ctx hour ws s = _run_activity_cycle ctx hour vs s := by
  induction h generalizing s with
  | nil => rfl
  | @cons w v ws' vs' hwv htail ih =>
    have h1 : _cycle_worker ctx hour w s = _cycle_worker ctx hour v s := by
      rw [_cycle_worker_congr ctx hour hwv]
    show _run_activity_cycle ctx hour ws' (_cycle_worker ctx hour w s) =
      _run_activity_cycle ctx hour vs' (_cycle_worker ctx hour v s)
    rw [h1]
    exact ih _

/-- Closed witness for C10: two runs whose single worker differs only
in `meetings_per_day` and `activity_variance_percent` coincide. -/
theorem meetings_variance_noninterference_witness :
    _run_activity_cycle {} 12
      [{ worker_id := "w1", display_name := "W 1", user_principal_name := "u",
         department := .sales, entra_object_id := "e", deployment_id := "d",
         activity_pattern :=
           { meetings_per_day := 4, activity_variance_percent := 30 } }] {} =
    _run_activity_cycle {} 12
      [{ worker_id := "w1", display_name := "W 1", user_principal_name := "u",
         department := .sales, entra_object_id := "e", deployment_id := "d",
         activity_pattern :=
           { meetings_per_day := 99, activity_variance_percent := 1 } }] {} :=
  meetings_variance_noninterference {} 12 _ _ {}
    (List.Forall₂.cons
      ⟨rfl, rfl, rfl, rfl, rfl, rfl, rfl, rfl, rfl, rfl, rfl⟩
      List.Forall₂.nil)

theorem delete_all_go_spec (l : List (String × WorkerIdentity)) :
    ∀ (m : EntraUserManager) (count : Nat), m.workers = l →
      (l.map Prod.fst).Nodup → m.creds_ok = true →
      delete_all_go m count (l.map Prod.fst) =
        Except.ok (count + l.length, { m with workers := [] }) := by
  induction l with
  | nil =>
    intro m count hw _ _
    cases m with
    | mk dep ws creds =>
      simp at hw
      subst hw
      show Except.ok (count, EntraUserManager.mk dep [] creds) =
        Except.ok (count + 0, EntraUserManager.mk dep [] creds)
      rw [Nat.add_zero]
  | cons a l ih =>
    intro m count hw hnd hcr
    obtain ⟨key, wid⟩ := a
    have hnd' : key ∉ l.map Prod.fst ∧ (l.map Prod.fst).Nodup :=
      List.nodup_cons.mp hnd
    have hlookup : m.workers.lookup key = some wid := by
      rw [hw]
      simp [List.lookup]
    have hfilter : m.workers.filter (fun kv => kv.1 != key) = l := by
      rw [hw]
      have hne : ∀ kv ∈ l, (kv.1 != key) = true := by
        intro kv hkv
        have hkne : kv.1 ≠ key := by
          intro hkeq
          exact hnd'.1 (hkeq ▸ List.mem_map_of_mem Prod.fst hkv)
        simpa using hkne
      have hfe := List.filter_eq_self.mpr hne
      simp [hfe]
    have hdel : delete_worker m key =
        Except.ok (true, { m with workers := l }) := by
      unfold delete_worker _get_graph_client
      rw [hlookup, hcr, hfilter]
      rfl
    calc delete_all_go m count (((key, wid) :: l).map Prod.fst)
        = delete_all_go m count (key :: l.map Prod.fst) := rfl
      _ = delete_all_go { m with workers := l } (count + 1) (l.map Prod.fst) := by
          simp only [delete_all_go]
          rw [hdel]
      _ = Except.ok (count + 1 + l.length, { m with workers := [] }) :=
          ih { m with workers := l } (count + 1) rfl hnd'.2 hcr
      _ = Except.ok (count + (((key, wid) :: l).length),
            { m with workers := [] }) := by
          have harith : count + 1 + l.length = count + (l.length + 1) := by omega
          rw [List.length_cons, harith]

theorem delete_all_workers_spec (m : EntraUserManager)
    (hnd : (m.workers.map Prod.fst).Nodup) (hcr : m.creds_ok = true) :
    delete_all_workers m =
      Except.ok (m.workers.length, { m with workers := [] }) := by
  unfold delete_all_workers
  rw [delete_all_go_spec m.workers m 0 rfl hnd hcr]
  simp

/-- C7: `cleanup` never propagates an exception: when the
identity-deletion capability raises, the exception is caught, the
returned report has a non-empty `errors` list and the deployment\x27s
final status is `Failed`; when deletion succeeds for all `n`
provisioned workers (distinct worker ids, credentials present), the
report\x27s `resourcesDeleted` equals `n` and the final status is
`Completed`. -/
theorem cleanup_catches_and_counts :
    (∀ (st : DeploymentState) (m : EntraUserManager) (e : String),
      delete_all_workers m = Except.error e →
      (cleanup st (some m)).1.errors ≠ [] ∧
      (cleanup st (some m)).2.status = DeploymentStatus.failed) ∧
    (∀ (st : DeploymentState) (m : EntraUserManager),
      (m.workers.map Prod.fst).Nodup → m.creds_ok = true →
      (cleanup st (some m)).1.resources_deleted = m.workers.length ∧
      (cleanup st (some m)).2.status = DeploymentStatus.completed) := by
  constructor
  · intro st m e he
    simp [cleanup, he]
  · intro st m hnd hcr
    simp [cleanup, delete_all_workers_spec m hnd hcr]

/-- Closed witness for C7: a manager whose credentials are missing
makes cleanup record the error and fail; a manager with 5 distinct
workers and credentials present yields 5 deleted resources and
completion. -/
theorem cleanup_catches_and_counts_witness :
    ((cleanup {} (some { workers := [sample_worker "w1"], creds_ok := false })).1.errors ≠ [] ∧
     (cleanup {} (some { workers := [sample_worker "w1"], creds_ok := false })).2.status =
        DeploymentStatus.failed) ∧
    ((cleanup {} (some { workers :=
        ["w1", "w2", "w3", "w4", "w5"].map sample_worker })).1.resources_deleted = 5 ∧
     (cleanup {} (some { workers :=
        ["w1", "w2", "w3", "w4", "w5"].map sample_worker })).2.status =
        DeploymentStatus.completed) :=
  ⟨cleanup_catches_and_counts.1 {} _
      "Missing M365 credentials. Required: KW_TENANT_ID, KW_APP_ID, KW_CLIENT_SECRET"
      rfl,
   cleanup_catches_and_counts.2 {} _ (by decide) rfl⟩

/-- C8, evaluated at the failing input `workers = "abc"` (a string
value): the first check appends the type error, but the unconditional
second check `if workers > 300:` then raises `TypeError` comparing a
`str` to an `int`, so `validate_config` raises instead of returning its
error list; by contrast an int out of range (0) does produce a
non-empty error list without raising. -/
theorem validate_config_raises_on_str_workers :
    validate_config []
        (fun k => if k = "workers" then some (PyVal.str "abc") else Option.none) =
      Except.error "TypeError: unsupported comparison" ∧
    validate_config []
        (fun k => if k = "workers" then some (PyVal.int 0) else Option.none) =
      Except.ok ["\x27workers\x27 must be a positive integer"] := by
  constructor
  · rfl
  · rfl

/-- C9 counterexample: requesting `N = 0` lines from a one-line buffer
returns the whole buffer (the Python slice `logs[-0:]` is `logs[0:]`),
not `min(0, total) = 0` lines. -/
theorem get_logs_zero_lines_cex :
    get_logs_lines ["line1"] 0 = ["line1"] ∧
      (get_logs_lines ["line1"] 0).length ≠ min 0 1 := by
  decide

/-- C9 amended: for every buffered log state and every requested count
`N ≥ 1`, the non-follow log read returns exactly the most recent
`min(N, total)` buffered lines in their original append order (it is
the suffix of the buffer of that length); requesting `N = 0` returns
the entire buffer rather than zero lines. -/
theorem get_logs_last_lines (logs : List String) (lines : Nat)
    (h : 1 ≤ lines) :
    get_logs_lines logs lines =
      logs.drop (logs.length - min lines logs.length) ∧
    (get_logs_lines logs lines).length = min lines logs.length ∧
    List.IsSuffix (get_logs_lines logs lines) logs ∧
    get_logs_lines logs 0 = logs := by
  have hne : lines ≠ 0 := Nat.one_le_iff_ne_zero.mp h
  have hg : get_logs_lines logs lines = logs.drop (logs.length - lines) := by
    unfold get_logs_lines
    rw [if_neg hne]
  refine ⟨?_, ?_, ?_, rfl⟩
  · rw [hg]
    congr 1
    omega
  · rw [hg, List.length_drop]
    omega
  · rw [hg]
    exact List.drop_suffix _ _

/-- Closed witness for C9 amended: the last 2 of 3 buffered lines. -/
theorem get_logs_last_lines_witness :
    get_logs_lines ["a", "b", "c"] 2 =
      List.drop ((["a", "b", "c"] : List String).length -
        min 2 (["a", "b", "c"] : List String).length) ["a", "b", "c"] :=
  (get_logs_last_lines ["a", "b", "c"] 2 (by decide)).1

end M365
